import Mathlib

set_option maxHeartbeats 1000000

namespace Solaredge

/-! ## Byte-level helpers

The newer crate turns a response body (`Vec<u8>`) into the payload of
`Error::Api` via `String::from_utf8_lossy(self.body()).into_owned()`
(src/src/client.rs, `ResponseExt::error_for_status`). We model bodies as
lists of bytes (`List Nat`, each `< 256`) and the lossy conversion as a
function on byte lists that replaces every maximal invalid UTF-8 subpart
with the UTF-8 encoding of U+FFFD, exactly as Rust's `from_utf8_lossy`
documents. -/

/-- UTF-8 encoding of the replacement character U+FFFD. -/
def replacementBytes : List Nat := [0xEF, 0xBF, 0xBD]

/-- Is the byte a UTF-8 continuation byte. -/
def isCont (b : Nat) : Bool := 0x80 ≤ b && b ≤ 0xBF

/-- Lower bound of the first continuation byte for a given lead byte
(the non-uniform rows of the UTF-8 table). -/
def cont1Lo (b : Nat) : Nat := if b = 0xE0 then 0xA0 else if b = 0xF0 then 0x90 else 0x80

/-- Upper bound of the first continuation byte for a given lead byte. -/
def cont1Hi (b : Nat) : Nat := if b = 0xED then 0x9F else if b = 0xF4 then 0x8F else 0xBF

/-- The bytes of `String::from_utf8_lossy` applied to the given bytes: valid
UTF-8 sequences are copied verbatim, each maximal invalid subpart becomes
one replacement character. -/
def utf8Lossy : List Nat → List Nat
  | [] => []
  | b :: rest =>
    if b ≤ 0x7F then b :: utf8Lossy rest
    else if 0xC2 ≤ b && b ≤ 0xDF then
      match rest with
      | [] => replacementBytes
      | b2 :: rest2 =>
        if isCont b2 then b :: b2 :: utf8Lossy rest2
        else replacementBytes ++ utf8Lossy (b2 :: rest2)
    else if 0xE0 ≤ b && b ≤ 0xEF then
      match rest with
      | [] => replacementBytes
      | b2 :: rest2 =>
        if cont1Lo b ≤ b2 && b2 ≤ cont1Hi b then
          match rest2 with
          | [] => replacementBytes
          | b3 :: rest3 =>
            if isCont b3 then b :: b2 :: b3 :: utf8Lossy rest3
            else replacementBytes ++ utf8Lossy (b3 :: rest3)
        else replacementBytes ++ utf8Lossy (b2 :: rest2)
    else if 0xF0 ≤ b && b ≤ 0xF4 then
      match rest with
      | [] => replacementBytes
      | b2 :: rest2 =>
        if cont1Lo b ≤ b2 && b2 ≤ cont1Hi b then
          match rest2 with
          | [] => replacementBytes
          | b3 :: rest3 =>
            if isCont b3 then
              match rest3 with
              | [] => replacementBytes
              | b4 :: rest4 =>
                if isCont b4 then b :: b2 :: b3 :: b4 :: utf8Lossy rest4
                else replacementBytes ++ utf8Lossy (b4 :: rest4)
            else replacementBytes ++ utf8Lossy (b3 :: rest3)
        else replacementBytes ++ utf8Lossy (b2 :: rest2)
    else replacementBytes ++ utf8Lossy rest

/-! ## HTTP model of the newer crate (src/src)

The HTTP capability (`HttpClientAdapter`) is a single `execute` operation;
we model it as a pure function `Request → Except E Response`. The client
pipeline `perform_request` / `fetch_json` / `fetch_image`
(src/src/client.rs) additionally returns the list of requests that were
handed to the capability, so that the number of capability invocations is
part of the model. -/

structure Request where
  method : String
  url : String
  headers : List (String × String)
  body : List Nat
deriving DecidableEq

structure Response where
  status : Nat
  body : List Nat
deriving DecidableEq

/-- The error type of the newer crate (src/src/error.rs). `Api` carries the
HTTP status and the response body bytes. -/
inductive Error (E : Type) where
  | UrlParse (msg : String)
  | UrlEncode (msg : String)
  | HttpRequest (e : E)
  | Json (msg : String)
  | Api (status : Nat) (body : List Nat)
deriving DecidableEq

/-- Base URL of the monitoring API (src/src/client.rs, `new_with_client`). -/
def baseUrl : String := "https://monitoringapi.solaredge.com"

/-- Joining the base URL, the path and a (possibly empty) query string:
`perform_request` sets the query only when it is non-empty. -/
def buildUrl (path query : String) : String :=
  if query = "" then baseUrl ++ path else baseUrl ++ path ++ "?" ++ query

/-- Status check of src/src/client.rs (`ResponseExt::error_for_status`):
4xx/5xx responses become `Error::Api` carrying the status and the
lossily-decoded body, other responses pass through. -/
def error_for_status {E : Type} (r : Response) : Except (Error E) Response :=
  if (400 ≤ r.status && r.status ≤ 499) || (500 ≤ r.status && r.status ≤ 599) then
    Except.error (Error.Api r.status (utf8Lossy r.body))
  else Except.ok r

/-- Model of `Client::perform_request` (src/src/client.rs): serialize the
parameters to a query string, on failure return `UrlEncode` without
touching the capability; otherwise build one GET request carrying the
`X-API-Key` header and hand it to the capability exactly once, then apply
the status check. The first component lists the requests the capability
received. -/
def perform_request {E P : Type} (execute : Request → Except E Response) (api_key : String)
    (url_path : String) (serializeQuery : P → Except String String) (params : P) :
    List Request × Except (Error E) Response :=
  match serializeQuery params with
  | Except.error e => ([], Except.error (Error.UrlEncode e))
  | Except.ok query =>
    let req : Request :=
      { method := "GET", url := buildUrl url_path query,
        headers := [("X-API-Key", api_key)], body := [] }
    ([req],
      match execute req with
      | Except.error e => Except.error (Error.HttpRequest e)
      | Except.ok res => error_for_status res)

/-- Model of `Client::fetch_json` (src/src/client.rs): perform the request
and decode the body of a successful response. `decode` stands for
`serde_json::from_slice` at the concrete response type. -/
def fetch_json {E P R : Type} (execute : Request → Except E Response) (api_key : String)
    (url_path : String) (serializeQuery : P → Except String String) (params : P)
    (decode : List Nat → Except String R) : List Request × Except (Error E) R :=
  let pr := perform_request execute api_key url_path serializeQuery params
  (pr.1,
    match pr.2 with
    | Except.error e => Except.error e
    | Except.ok res =>
      match decode res.body with
      | Except.error e => Except.error (Error.Json e)
      | Except.ok v => Except.ok v)

/-- Model of `Client::fetch_image` (src/src/client.rs): perform the request
and return the raw body of a successful response. -/
def fetch_image {E P : Type} (execute : Request → Except E Response) (api_key : String)
    (url_path : String) (serializeQuery : P → Except String String) (params : P) :
    List Request × Except (Error E) (List Nat) :=
  let pr := perform_request execute api_key url_path serializeQuery params
  (pr.1,
    match pr.2 with
    | Except.error e => Except.error e
    | Except.ok res => Except.ok res.body)

/-! ## Comma-joined slice serializer (src/src/api/mod.rs)

`serialize_comma_slice` builds a single string from a slice of values: for
each value it first appends a comma unless the value is the first one, then
appends `to_variant_name(v)?` — which yields the serde rename (or bare
name) for a unit enum variant but returns an `UnsupportedType` error for
any other shape, in particular for strings, and the `?` aborts the whole
serialization. We mirror the loop, with its accumulator string,
first-element flag and error propagation, literally; the per-element
serializer is a parameter instantiated per element type below. -/

def serialize_comma_slice_loop {α : Type} (tokenSer : α → Except String String) :
    String → Bool → List α → Except String String
  | res, _, [] => Except.ok res
  | res, first, v :: rest =>
    let res1 := if !first then res ++ "," else res
    match tokenSer v with
    | Except.error e => Except.error e
    | Except.ok t => serialize_comma_slice_loop tokenSer (res1 ++ t) false rest

/-- Model of `serialize_comma_slice` (src/src/api/mod.rs): the loop starting
from the empty accumulator with the first-element flag set; the first
element whose serialization fails aborts with that error. -/
def serialize_comma_slice {α : Type} (tokenSer : α → Except String String)
    (slice : List α) : Except String String :=
  serialize_comma_slice_loop tokenSer "" true slice

/-- Model of `serialize_comma_slice_opt` (src/src/api/mod.rs): `None` is
serialized as an absent value (the owning field is skipped by the query
serializer), `Some` delegates to `serialize_comma_slice`, whose error fails
the whole struct serialization. -/
def serialize_comma_slice_opt {α : Type} (tokenSer : α → Except String String) :
    Option (List α) → Option (Except String String)
  | none => none
  | some slice => some (serialize_comma_slice tokenSer slice)

/-- `serde_variant::to_variant_name` on a unit enum variant: always
succeeds with the vendor token. -/
def to_variant_name_ok {α : Type} (token : α → String) : α → Except String String :=
  fun v => Except.ok (token v)

/-- `serde_variant::to_variant_name` on a `String` value: the value
serializes through `serialize_str`, which serde_variant does not support,
so it fails with `UnsupportedType` for every string. -/
def to_variant_name_str : String → Except String String :=
  fun _ => Except.error "UnsupportedType"

/-- The value `serialize_comma_slice` produces on a slice of enum values:
the comma-joined vendor tokens (see the lemma `serialize_comma_slice_ok`,
which proves the loop yields `Except.ok` of exactly this string). -/
def comma_tokens {α : Type} (token : α → String) (l : List α) : String :=
  String.intercalate "," (l.map token)


/-! ## Enumerations and their vendor wire tokens

Tokens are taken from src/src/api/enums.rs: the serde rename when present,
the bare variant name otherwise. `SiteStatus` is referenced throughout the
newer crate but its definition only exists in the older crate
(src/solaredge/src/api/enums.rs), from which the variants and tokens below
are taken. -/

inductive SiteStatus where
  | Active
  | Pending
  | Disabled
  | All
deriving DecidableEq

def SiteStatus.token : SiteStatus → String
  | .Active => "Active"
  | .Pending => "Pending"
  | .Disabled => "Disabled"
  | .All => "All"

inductive SortOrder where
  | Ascending
  | Descending
deriving DecidableEq

def SortOrder.token : SortOrder → String
  | .Ascending => "ASC"
  | .Descending => "DESC"

inductive SiteSortBy where
  | Name
  | Country
  | State
  | City
  | Address
  | Zip
  | Status
  | PeakPower
  | InstallationDate
  | Amount
  | MaxSeverity
  | CreationTime
deriving DecidableEq

def SiteSortBy.token : SiteSortBy → String
  | .Name => "Name"
  | .Country => "Country"
  | .State => "State"
  | .City => "City"
  | .Address => "Address"
  | .Zip => "Zip"
  | .Status => "Status"
  | .PeakPower => "PeakPower"
  | .InstallationDate => "InstallationDate"
  | .Amount => "Amount"
  | .MaxSeverity => "MaxSeverity"
  | .CreationTime => "CreationTime"

inductive TimeUnit where
  | QuarterOfAnHour
  | Hour
  | Day
  | Week
  | Month
  | Year
deriving DecidableEq

/-- Serialization tokens of `TimeUnit` (all carry serde renames). -/
def TimeUnit.ser : TimeUnit → String
  | .QuarterOfAnHour => "QUARTER_OF_AN_HOUR"
  | .Hour => "HOUR"
  | .Day => "DAY"
  | .Week => "WEEK"
  | .Month => "MONTH"
  | .Year => "YEAR"

/-- Deserialization of `TimeUnit`: the derived deserializer accepts exactly
the declared tokens and fails otherwise. -/
def TimeUnit.de (s : String) : Option TimeUnit :=
  if s = "QUARTER_OF_AN_HOUR" then some .QuarterOfAnHour
  else if s = "HOUR" then some .Hour
  else if s = "DAY" then some .Day
  else if s = "WEEK" then some .Week
  else if s = "MONTH" then some .Month
  else if s = "YEAR" then some .Year
  else none

inductive MeterType where
  | Production
  | Consumption
  | SelfConsumption
  | FeedIn
  | Purchased
deriving DecidableEq

/-- Serialization tokens of `MeterType` (no renames: the variant names). -/
def MeterType.ser : MeterType → String
  | .Production => "Production"
  | .Consumption => "Consumption"
  | .SelfConsumption => "SelfConsumption"
  | .FeedIn => "FeedIn"
  | .Purchased => "Purchased"

def MeterType.de (s : String) : Option MeterType :=
  if s = "Production" then some .Production
  else if s = "Consumption" then some .Consumption
  else if s = "SelfConsumption" then some .SelfConsumption
  else if s = "FeedIn" then some .FeedIn
  else if s = "Purchased" then some .Purchased
  else none

inductive SystemUnits where
  | Metrics
  | Imperial
deriving DecidableEq

def SystemUnits.token : SystemUnits → String
  | .Metrics => "Metrics"
  | .Imperial => "Imperial"

/-- `EnergyUnit` has one defined token (`Wh`) and an untagged catch-all
variant carrying the raw string. -/
inductive EnergyUnit where
  | Wh
  | Other (raw : String)
deriving DecidableEq

def EnergyUnit.ser : EnergyUnit → String
  | .Wh => "Wh"
  | .Other raw => raw

/-- The derived deserializer tries the declared tokens first and falls back
to the untagged `Other` variant holding the raw string. -/
def EnergyUnit.de (s : String) : EnergyUnit :=
  if s = "Wh" then .Wh else .Other s

/-- Does the variant have a defined vendor token (is it not the untagged
catch-all). -/
def EnergyUnit.hasToken : EnergyUnit → Bool
  | .Wh => true
  | .Other _ => false

/-- `PowerUnit` has the defined tokens `W` and `kW` (the latter a serde
rename of the `Kw` variant) and an untagged catch-all. -/
inductive PowerUnit where
  | W
  | Kw
  | Other (raw : String)
deriving DecidableEq

def PowerUnit.ser : PowerUnit → String
  | .W => "W"
  | .Kw => "kW"
  | .Other raw => raw

def PowerUnit.de (s : String) : PowerUnit :=
  if s = "W" then .W else if s = "kW" then .Kw else .Other s

def PowerUnit.hasToken : PowerUnit → Bool
  | .W => true
  | .Kw => true
  | .Other _ => false

/-! ## Naive dates and times (chrono `NaiveDate` / `NaiveDateTime`)

The crate formats dates with the chrono pattern `%Y-%m-%d` and date-times
with `%Y-%m-%d %H:%M:%S` (src/src/api/mod.rs, `DateSerde` and
`DateTimeSerde`). Per the chrono strftime rules, `%Y` zero-pads the year
to four digits and years outside 0..=9999 (which `NaiveDate` supports, up
to ±262143) are printed with a leading `+`/`-` sign; `%m`, `%d`, `%H`,
`%M`, `%S` zero-pad to two digits. Parsing of the same patterns skips
leading whitespace before every numeric field, accepts for `%Y` an
explicit `+`/`-` sign followed by an unbounded digit run (with no sign,
up to four digits), accepts flexibly-sized digit runs up to the field
width for the two-digit fields, matches pattern literals exactly, treats
the pattern space as any run of whitespace, and validates the calendar
date and the time of day. -/

structure Date where
  year : Int
  month : Nat
  day : Nat
deriving DecidableEq

structure Time where
  hour : Nat
  minute : Nat
  second : Nat
deriving DecidableEq

structure DateTime where
  date : Date
  time : Time
deriving DecidableEq

def digitChar (d : Nat) : Char := Char.ofNat (48 + d)

/-- Zero-padding to two digits (`Pad::Zero` with width 2): values that need
more digits are printed in full. -/
def pad2 (n : Nat) : String :=
  if n < 100 then String.mk [digitChar (n / 10), digitChar (n % 10)] else Nat.repr n

/-- Zero-padding to four digits. -/
def pad4 (n : Nat) : String :=
  if n < 10000 then
    String.mk [digitChar (n / 1000), digitChar (n / 100 % 10), digitChar (n / 10 % 10), digitChar (n % 10)]
  else Nat.repr n

/-- Chrono `%Y`: four-digit zero-padded for 0..=9999, otherwise printed with
an explicit leading sign. -/
def formatYear (y : Int) : String :=
  if 0 ≤ y && y ≤ 9999 then pad4 y.toNat
  else if y < 0 then "-" ++ pad4 y.natAbs
  else "+" ++ Nat.repr y.toNat

/-- Chrono formatting with the pattern `%Y-%m-%d` (`DateSerde::serialize`). -/
def formatDate (d : Date) : String :=
  formatYear d.year ++ "-" ++ pad2 d.month ++ "-" ++ pad2 d.day

/-- Chrono formatting with the pattern `%H:%M:%S`. -/
def formatTime (t : Time) : String :=
  pad2 t.hour ++ ":" ++ pad2 t.minute ++ ":" ++ pad2 t.second

/-- Chrono formatting with the pattern `%Y-%m-%d %H:%M:%S`
(`DateTimeSerde::serialize`). -/
def formatDateTime (dt : DateTime) : String :=
  formatDate dt.date ++ " " ++ formatTime dt.time

def isLeapYear (y : Int) : Bool := y % 4 = 0 && (y % 100 ≠ 0 || y % 400 = 0)

def daysInMonth (y : Int) (m : Nat) : Nat :=
  if m = 2 then if isLeapYear y then 29 else 28
  else if m = 4 || m = 6 || m = 9 || m = 11 then 30
  else 31

/-- Calendar validity as checked by `NaiveDate::from_ymd_opt`, including
the chrono year range -262144..=262143. -/
def validDate (y : Int) (m d : Nat) : Bool :=
  -262144 ≤ y && y ≤ 262143 && 1 ≤ m && m ≤ 12 && 1 ≤ d && d ≤ daysInMonth y m

def validTime (h mi s : Nat) : Bool := h ≤ 23 && mi ≤ 59 && s ≤ 59

/-- Is the string literally of the shape `YYYY-MM-DD`: ten characters,
four digits, a dash, two digits, a dash, two digits. -/
def isYYYYMMDD (s : String) : Bool :=
  match s.toList with
  | [y1, y2, y3, y4, h1, m1, m2, h2, d1, d2] =>
    y1.isDigit && y2.isDigit && y3.isDigit && y4.isDigit && h1 == '-' &&
      m1.isDigit && m2.isDigit && h2 == '-' && d1.isDigit && d2.isDigit
  | _ => false

/-- Is the string literally of the shape `YYYY-MM-DD HH:MM:SS`. -/
def isYYYYMMDDHHMMSS (s : String) : Bool :=
  match s.toList with
  | [y1, y2, y3, y4, h1, m1, m2, h2, d1, d2, sp, a1, a2, c1, b1, b2, c2, e1, e2] =>
    y1.isDigit && y2.isDigit && y3.isDigit && y4.isDigit && h1 == '-' &&
      m1.isDigit && m2.isDigit && h2 == '-' && d1.isDigit && d2.isDigit &&
      sp == ' ' && a1.isDigit && a2.isDigit && c1 == ':' && b1.isDigit && b2.isDigit &&
      c2 == ':' && e1.isDigit && e2.isDigit
  | _ => false

/-- Take at most `w` leading decimal digits. -/
def takeDigits : Nat → List Char → List Char × List Char
  | 0, cs => ([], cs)
  | _ + 1, [] => ([], [])
  | w + 1, c :: cs =>
    if c.isDigit then
      let r := takeDigits w cs
      (c :: r.1, r.2)
    else ([], c :: cs)

/-- Take every leading decimal digit (the unbounded width used after an
explicit sign). -/
def takeAllDigits : List Char → List Char × List Char
  | [] => ([], [])
  | c :: cs =>
    if c.isDigit then
      let r := takeAllDigits cs
      (c :: r.1, r.2)
    else ([], c :: cs)

def digitsVal (ds : List Char) : Nat := ds.foldl (fun acc c => acc * 10 + (c.toNat - 48)) 0

/-- Parse a run of one to `maxWidth` digits. -/
def parseNum (maxWidth : Nat) (cs : List Char) : Option (Nat × List Char) :=
  let r := takeDigits maxWidth cs
  if r.1.isEmpty then none else some (digitsVal r.1, r.2)

/-- Parse a run of one or more digits of unbounded width. -/
def parseAllNum (cs : List Char) : Option (Nat × List Char) :=
  let r := takeAllDigits cs
  if r.1.isEmpty then none else some (digitsVal r.1, r.2)

/-- Leading-whitespace skip: chrono trims whitespace before every numeric
field, and its `Space` pattern item likewise consumes any amount of
whitespace (including none). -/
def skipWhitespace : List Char → List Char
  | [] => []
  | c :: cs => if c.isWhitespace then skipWhitespace cs else c :: cs

/-- Parse an unsigned numeric field of the given width, after the
whitespace skip chrono applies to every numeric item. -/
def parseNumWs (maxWidth : Nat) (cs : List Char) : Option (Nat × List Char) :=
  parseNum maxWidth (skipWhitespace cs)

/-- Chrono `%Y` parsing: skip whitespace, then either an explicit `+`/`-`
sign followed by an unbounded run of digits, or (with no sign) up to four
digits. -/
def parseYearNum (cs : List Char) : Option (Int × List Char) :=
  let cs1 := skipWhitespace cs
  if cs1.head? = some '+' then
    (parseAllNum cs1.tail).map fun r => (Int.ofNat r.1, r.2)
  else if cs1.head? = some '-' then
    (parseAllNum cs1.tail).map fun r => (-Int.ofNat r.1, r.2)
  else
    (parseNum 4 cs1).map fun r => (Int.ofNat r.1, r.2)

/-- A literal pattern character: matched exactly, with no whitespace skip. -/
def expectChar (c : Char) : List Char → Option (List Char)
  | [] => none
  | x :: xs => if x = c then some xs else none

/-- Parse the `%Y-%m-%d` part and return the unconsumed remainder. -/
def parseDatePrefix (cs : List Char) : Option (Date × List Char) :=
  match parseYearNum cs with
  | none => none
  | some (y, cs1) =>
    match expectChar '-' cs1 with
    | none => none
    | some cs2 =>
      match parseNumWs 2 cs2 with
      | none => none
      | some (m, cs3) =>
        match expectChar '-' cs3 with
        | none => none
        | some cs4 =>
          match parseNumWs 2 cs4 with
          | none => none
          | some (d, cs5) =>
            if validDate y m d then
              some ({ year := y, month := m, day := d }, cs5)
            else none

/-- Parse the `%H:%M:%S` part and return the unconsumed remainder; the
leading whitespace skip of `%H` also covers the `Space` item separating
date and time in the date-time pattern. -/
def parseTimePart (cs : List Char) : Option (Time × List Char) :=
  match parseNumWs 2 cs with
  | none => none
  | some (h, cs1) =>
    match expectChar ':' cs1 with
    | none => none
    | some cs2 =>
      match parseNumWs 2 cs2 with
      | none => none
      | some (mi, cs3) =>
        match expectChar ':' cs3 with
        | none => none
        | some cs4 =>
          match parseNumWs 2 cs4 with
          | none => none
          | some (s, cs5) =>
            if validTime h mi s then some ({ hour := h, minute := mi, second := s }, cs5)
            else none

/-- Model of `str_to_date` (src/src/api/mod.rs):
`NaiveDate::parse_from_str(s, "%Y-%m-%d")`, which fails on trailing input. -/
def str_to_date (s : String) : Option Date :=
  match parseDatePrefix s.toList with
  | some (d, []) => some d
  | _ => none

/-- `NaiveDateTime::parse_from_str(s, "%Y-%m-%d %H:%M:%S")`, which fails on
trailing input. The `Space` item between date and time consumes any run of
whitespace, including none; it is subsumed by the whitespace skip at the
start of the `%H` field. -/
def parse_datetime (s : String) : Option DateTime :=
  match parseDatePrefix s.toList with
  | none => none
  | some (d, rest) =>
    match parseTimePart rest with
    | some (t, []) => some { date := d, time := t }
    | _ => none

def midnight : Time := { hour := 0, minute := 0, second := 0 }

/-- Model of `str_to_datetime` (src/src/api/mod.rs): try the full date-time
pattern first; if it fails, parse a bare date and use midnight. -/
def str_to_datetime (s : String) : Option DateTime :=
  match parse_datetime s with
  | some dt => some dt
  | none =>
    match str_to_date s with
    | some d => some { date := d, time := midnight }
    | none => none

/-! ## Query-string serialization of request parameter structs

`serde_urlencoded::to_string` serializes a struct field-by-field in
declaration order into `key=value` pairs joined by `&`, with keys renamed
to camelCase (`#[serde(rename_all = "camelCase")]`) and keys and values
percent-encoded with the `application/x-www-form-urlencoded` rules
(alphanumerics and `*-._` kept, space as `+`, everything else `%XX` per
UTF-8 byte). A field of `Option` type whose value is `None` (or whose
custom serializer calls `serialize_none`, as `serialize_comma_slice_opt`
does) is skipped entirely. We model each struct whose serialization cannot
fail as the list of pairs it contributes — for the enum-slice fields the
element serializer always succeeds, so the comma field value is
`comma_tokens` by the lemma `serialize_comma_slice_ok` — plus the
rendering of that list to the final string. The one struct whose
serialization can fail, `SiteStorageData` (its `serials` elements are
strings, which `to_variant_name` rejects), is modeled separately with the
fallible result type. -/

def optPair (key : String) (value : Option String) : List (String × String) :=
  match value with
  | none => []
  | some v => [(key, v)]

/-- UTF-8 encoding of a unicode code point. -/
def utf8EncodeChar (n : Nat) : List Nat :=
  if n < 0x80 then [n]
  else if n < 0x800 then [0xC0 + n / 64, 0x80 + n % 64]
  else if n < 0x10000 then [0xE0 + n / 4096, 0x80 + n / 64 % 64, 0x80 + n % 64]
  else [0xF0 + n / 262144, 0x80 + n / 4096 % 64, 0x80 + n / 64 % 64, 0x80 + n % 64]

def hexDigitChar (n : Nat) : Char := if n < 10 then Char.ofNat (48 + n) else Char.ofNat (55 + n)

def percentByte (b : Nat) : String := String.mk ['%', hexDigitChar (b / 16), hexDigitChar (b % 16)]

def formUnreserved (c : Char) : Bool :=
  c.isAlphanum || c = '*' || c = '-' || c = '.' || c = '_'

def formEncodeChar (c : Char) : String :=
  if c = ' ' then "+"
  else if formUnreserved c then String.mk [c]
  else String.join ((utf8EncodeChar c.toNat).map percentByte)

def formEncode (s : String) : String := String.join (s.toList.map formEncodeChar)

/-- Rendering of the pair list into the final query string. -/
def renderQuery (pairs : List (String × String)) : String :=
  String.intercalate "&" (pairs.map fun kv => formEncode kv.1 ++ "=" ++ formEncode kv.2)

/-- Model of the request struct `SitesList` (src/src/api/request.rs): every
field optional. -/
structure SitesList where
  size : Option Nat
  start_index : Option Nat
  search_text : Option String
  sort_property : Option SiteSortBy
  sort_order : Option SortOrder
  status : Option (List SiteStatus)
deriving DecidableEq

/-- The query pairs contributed by a `SitesList`, in field declaration
order, with camelCase keys; absent fields contribute nothing. -/
def SitesList.toPairs (p : SitesList) : List (String × String) :=
  optPair ("size") (p.size.map Nat.repr) ++
  optPair ("startIndex") (p.start_index.map Nat.repr) ++
  optPair ("searchText") p.search_text ++
  optPair ("sortProperty") (p.sort_property.map SiteSortBy.token) ++
  optPair ("sortOrder") (p.sort_order.map SortOrder.token) ++
  optPair ("status") (p.status.map (comma_tokens SiteStatus.token))

/-- Model of the request struct `SiteEnergy` (src/src/api/request.rs):
two mandatory dates and an optional time unit. -/
structure SiteEnergy where
  start_date : Date
  end_date : Date
  time_unit : Option TimeUnit
deriving DecidableEq

def SiteEnergy.toPairs (p : SiteEnergy) : List (String × String) :=
  [("startDate", formatDate p.start_date), ("endDate", formatDate p.end_date)] ++
  optPair ("timeUnit") (p.time_unit.map TimeUnit.ser)

/-- Model of the request struct `SitePowerDetails` (src/src/api/request.rs):
two mandatory date-times and an optional meter list. -/
structure SitePowerDetails where
  start_time : DateTime
  end_time : DateTime
  meters : Option (List MeterType)
deriving DecidableEq

def SitePowerDetails.toPairs (p : SitePowerDetails) : List (String × String) :=
  [("startTime", formatDateTime p.start_time), ("endTime", formatDateTime p.end_time)] ++
  optPair ("meters") (p.meters.map (comma_tokens MeterType.ser))

inductive AccountSortBy where
  | Name
  | Country
  | City
  | Address
  | Zip
  | Fax
  | Phone
  | Notes
deriving DecidableEq

def AccountSortBy.token : AccountSortBy → String
  | .Name => "Name"
  | .Country => "Country"
  | .City => "City"
  | .Address => "Address"
  | .Zip => "Zip"
  | .Fax => "Fax"
  | .Phone => "Phone"
  | .Notes => "Notes"

/-- Model of `SiteTotalEnergy` (src/src/api/request.rs). -/
structure SiteTotalEnergy where
  start_date : Date
  end_date : Date
deriving DecidableEq

def SiteTotalEnergy.toPairs (p : SiteTotalEnergy) : List (String × String) :=
  [("startDate", formatDate p.start_date), ("endDate", formatDate p.end_date)]

/-- Model of `DateTimeRange` (src/src/api/request.rs). -/
structure DateTimeRange where
  start_time : DateTime
  end_time : DateTime
deriving DecidableEq

def DateTimeRange.toPairs (p : DateTimeRange) : List (String × String) :=
  [("startTime", formatDateTime p.start_time), ("endTime", formatDateTime p.end_time)]

/-- Model of `MetersDateTimeRange` (src/src/api/request.rs). -/
structure MetersDateTimeRange where
  start_time : DateTime
  end_time : DateTime
  time_unit : Option TimeUnit
  meters : Option (List MeterType)
deriving DecidableEq

def MetersDateTimeRange.toPairs (p : MetersDateTimeRange) : List (String × String) :=
  [("startTime", formatDateTime p.start_time), ("endTime", formatDateTime p.end_time)] ++
  optPair ("timeUnit") (p.time_unit.map TimeUnit.ser) ++
  optPair ("meters") (p.meters.map (comma_tokens MeterType.ser))

/-- Model of `SensorsDateTimeRange` (src/src/api/request.rs): its fields
are named `start_date`/`end_date` but hold date-times. -/
structure SensorsDateTimeRange where
  start_date : DateTime
  end_date : DateTime
deriving DecidableEq

def SensorsDateTimeRange.toPairs (p : SensorsDateTimeRange) : List (String × String) :=
  [("startDate", formatDateTime p.start_date), ("endDate", formatDateTime p.end_date)]

/-- Model of `SiteImage` (src/src/api/request.rs): every field optional. -/
structure SiteImage where
  max_width : Option Nat
  max_height : Option Nat
  hash : Option Nat
deriving DecidableEq

def SiteImage.toPairs (p : SiteImage) : List (String × String) :=
  optPair ("maxWidth") (p.max_width.map Nat.repr) ++
  optPair ("maxHeight") (p.max_height.map Nat.repr) ++
  optPair ("hash") (p.hash.map Nat.repr)

/-- Model of `SiteEnvBenefits` (src/src/api/request.rs). -/
structure SiteEnvBenefits where
  system_units : Option SystemUnits
deriving DecidableEq

def SiteEnvBenefits.toPairs (p : SiteEnvBenefits) : List (String × String) :=
  optPair ("systemUnits") (p.system_units.map SystemUnits.token)

/-- Model of `AccountsList` (src/src/api/request.rs): every field optional. -/
structure AccountsList where
  size : Option Nat
  start_index : Option Nat
  search_text : Option String
  sort_property : Option AccountSortBy
  sort_order : Option SortOrder
deriving DecidableEq

def AccountsList.toPairs (p : AccountsList) : List (String × String) :=
  optPair ("size") (p.size.map Nat.repr) ++
  optPair ("startIndex") (p.start_index.map Nat.repr) ++
  optPair ("searchText") p.search_text ++
  optPair ("sortProperty") (p.sort_property.map AccountSortBy.token) ++
  optPair ("sortOrder") (p.sort_order.map SortOrder.token)

/-- Model of `SiteStorageData` (src/src/api/request.rs): two mandatory
date-times and an optional list of battery serial numbers — plain strings,
not enum values. -/
structure SiteStorageData where
  start_time : DateTime
  end_time : DateTime
  serials : Option (List String)
deriving DecidableEq

/-- Serialization of `SiteStorageData`: the serials field goes through
`serialize_comma_slice_opt` whose element serializer is `to_variant_name`
on a `String`, so a present non-empty serials list aborts the whole
serialization with the `UnsupportedType` error (surfaced by the client as
`Error::UrlEncode`); an absent field is skipped and an empty list yields
the empty joined string. -/
def SiteStorageData.serialize (p : SiteStorageData) :
    Except String (List (String × String)) :=
  match serialize_comma_slice_opt to_variant_name_str p.serials with
  | none =>
    Except.ok [("startTime", formatDateTime p.start_time), ("endTime", formatDateTime p.end_time)]
  | some (Except.error e) => Except.error e
  | some (Except.ok v) =>
    Except.ok [("startTime", formatDateTime p.start_time), ("endTime", formatDateTime p.end_time),
      ("serials", v)]

/-- The values landing in the query under a given key. -/
def valuesFor (pairs : List (String × String)) (key : String) : List String :=
  (pairs.filter fun kv => kv.1 = key).map fun kv => kv.2


/-! ## JSON model and the generic list envelope (src/src/api/response.rs)

The `List<T>` response struct has a `count: Option<usize>` field with serde
aliases `total` and `batteryCount`, and a `list: Vec<T>` field with aliases
`data`, `site`, `siteEnergyList`, `timeFrameEnergyList`, `telemetries` and
`batteries`. The derived deserializer walks the JSON object fields in
order, accepts any alias for a field, errors on a duplicate of an already
filled field, ignores unknown fields, defaults a missing `Option` field to
`None` and errors when `list` is missing. -/

inductive Json where
  | null
  | bool (b : Bool)
  | num (n : Int)
  | str (s : String)
  | arr (elems : List Json)
  | obj (fields : List (String × Json))

/-- Uniform result shape exposed by the `List<T>` decoder. The Rust struct
is named `List`; it is renamed here to avoid shadowing `List` of Lean. -/
structure ListEnvelope (α : Type) where
  count : Option Nat
  list : List α

/-- Accepted key set of the `count` field: its name and its aliases. -/
def countAliases : List String := ["count", "total", "batteryCount"]

/-- Accepted key set of the `list` field: its name and its aliases. -/
def listAliases : List String :=
  ["list", "data", "site", "siteEnergyList", "timeFrameEnergyList", "telemetries", "batteries"]

/-- Deserialization of `Option<usize>`. -/
def decodeCount : Json → Except String (Option Nat)
  | Json.null => Except.ok none
  | Json.num n => if 0 ≤ n then Except.ok (some n.toNat) else Except.error "invalid value"
  | _ => Except.error "invalid type"

def mapExcept {α β : Type} (f : α → Except String β) : List α → Except String (List β)
  | [] => Except.ok []
  | x :: xs =>
    match f x with
    | Except.error e => Except.error e
    | Except.ok y =>
      match mapExcept f xs with
      | Except.error e => Except.error e
      | Except.ok ys => Except.ok (y :: ys)

/-- Deserialization of `Vec<T>` given the element deserializer. -/
def decodeElems {α : Type} (decT : Json → Except String α) : Json → Except String (List α)
  | Json.arr elems => mapExcept decT elems
  | _ => Except.error "invalid type"

/-- The field loop of the derived `List<T>` deserializer: two slots, alias
lookup, duplicate detection, unknown fields ignored. -/
def decodeFields {α : Type} (decT : Json → Except String α) :
    List (String × Json) → Option (Option Nat) → Option (List α) →
      Except String (ListEnvelope α)
  | [], cSlot, lSlot =>
    match lSlot with
    | none => Except.error "missing field list"
    | some l =>
      Except.ok { count := match cSlot with | none => none | some c => c, list := l }
  | (k, v) :: rest, cSlot, lSlot =>
    if k ∈ countAliases then
      match cSlot with
      | some _ => Except.error "duplicate field count"
      | none =>
        match decodeCount v with
        | Except.error e => Except.error e
        | Except.ok c => decodeFields decT rest (some c) lSlot
    else if k ∈ listAliases then
      match lSlot with
      | some _ => Except.error "duplicate field list"
      | none =>
        match decodeElems decT v with
        | Except.error e => Except.error e
        | Except.ok l => decodeFields decT rest cSlot (some l)
    else decodeFields decT rest cSlot lSlot

/-- The generic `List<T>` decoder applied to a JSON value. -/
def decodeListEnvelope {α : Type} (decT : Json → Except String α) (j : Json) :
    Except String (ListEnvelope α) :=
  match j with
  | Json.obj fields => decodeFields decT fields none none
  | _ => Except.error "invalid type"

/-! ## Older crate client (src/solaredge/src/client.rs)

`Client::prepare_url` joins the base URL and the path, sets the
serde_urlencoded query when non-empty, and then always appends the pair
`("api_key", <key>)` via `query_pairs_mut().append_pair`, so the key is the
final query pair. We model the query at the pair level. -/

def prepare_url {P : Type} (serializeQuery : P → Except String (List (String × String)))
    (api_key : String) (params : P) : Except String (List (String × String)) :=
  match serializeQuery params with
  | Except.error e => Except.error e
  | Except.ok pairs => Except.ok (pairs ++ [("api_key", api_key)])

/-! ## Debug formatting of the clients

Both crates implement `Debug` for `Client` identically
(src/src/client.rs and src/solaredge/src/client.rs): a `debug_struct`
named `Client` with the fields `client`, `base_url`, and `api_key`, where
the `api_key` field is given the constant string `"<hidden>"` instead of
the key. We model the Debug view of a client by the Debug renderings of
its first two fields plus the key itself, and reproduce the standard
single-line `debug_struct` output. -/

structure ClientDebugView where
  client : String
  base_url : String
  api_key : String
deriving DecidableEq

/-- The `Debug` output of `Client`: the `api_key` position prints the
placeholder `"<hidden>"`, never the key. -/
def debugClient (c : ClientDebugView) : String :=
  "Client \x7b client: " ++ c.client ++ ", base_url: " ++ c.base_url ++
    ", api_key: \"<hidden>\" \x7d"

/-- Is `pat` a contiguous substring of the second list. -/
def isSubstr (pat : List Char) : List Char → Bool
  | [] => pat.isEmpty
  | c :: rest => pat.isPrefixOf (c :: rest) || isSubstr pat rest

/-- The capability used to witness C1: it always answers 403 with the body
bytes of the string `Forbidden`. -/
def forbiddenExecute : Request → Except Unit Response := fun _ =>
  Except.ok { status := 403, body := [70, 111, 114, 98, 105, 100, 100, 101, 110] }

/-- The capability used for the C1 counterexample: it answers 403 with the
single non-UTF-8 byte `0xFF`. -/
def badBodyExecute : Request → Except Unit Response := fun _ =>
  Except.ok { status := 403, body := [0xFF] }

/-! ## Shared helper lemmas -/

/-- On pure ASCII input the lossy conversion is the identity. -/
theorem utf8Lossy_ascii (l : List Nat) (h : ∀ b ∈ l, b ≤ 0x7F) : utf8Lossy l = l := by
  induction l with
  | nil => rfl
  | cons b rest ih =>
    have hb : b ≤ 0x7F := h b (List.mem_cons_self b rest)
    have hrest : ∀ x ∈ rest, x ≤ 0x7F := fun x hx => h x (List.mem_cons_of_mem b hx)
    rw [utf8Lossy.eq_def]
    simp [hb, ih hrest]

theorem serialize_comma_slice_loop_false {α : Type} (token : α → String) (l : List α)
    (res : String) :
    serialize_comma_slice_loop (to_variant_name_ok token) res false l =
      Except.ok (l.foldl (fun acc v => acc ++ "," ++ token v) res) := by
  induction l generalizing res with
  | nil => rfl
  | cons v rest ih => simp [serialize_comma_slice_loop, to_variant_name_ok, ih]

theorem valuesFor_append (l1 l2 : List (String × String)) (k : String) :
    valuesFor (l1 ++ l2) k = valuesFor l1 k ++ valuesFor l2 k := by
  simp [valuesFor]

theorem valuesFor_optPair_self (k : String) (v : Option String) :
    valuesFor (optPair k v) k = v.toList := by
  cases v <;> simp [valuesFor, optPair]

theorem valuesFor_optPair_ne (k k2 : String) (v : Option String) (h : k2 ≠ k) :
    valuesFor (optPair k2 v) k = [] := by
  cases v <;> simp [valuesFor, optPair, h]



theorem foldl_comma_intercalate (s : String) (ts : List String) :
    ts.foldl (fun acc v => acc ++ "," ++ v) s = String.intercalate "," (s :: ts) := by
  simp only [String.intercalate]
  induction ts generalizing s with
  | nil => rfl
  | cons t ts ih => simp [String.intercalate.go, ih]

/-- On a slice of enum values the element serializer always succeeds, so
`serialize_comma_slice` returns `Except.ok` of the comma-joined tokens. -/
theorem serialize_comma_slice_ok {α : Type} (token : α → String) (l : List α) :
    serialize_comma_slice (to_variant_name_ok token) l = Except.ok (comma_tokens token l) := by
  cases l with
  | nil => rfl
  | cons a rest =>
    show serialize_comma_slice_loop (to_variant_name_ok token) ("" ++ token a) false rest = _
    rw [serialize_comma_slice_loop_false, comma_tokens,
      ← List.foldl_map token (fun (acc : String) v => acc ++ "," ++ v) rest ("" ++ token a),
      foldl_comma_intercalate]
    simp

/-! ## Claim theorems -/

/-- C2: for every client method call, the injected capability's `execute` is
invoked exactly once when parameter serialization succeeds and exactly zero
times when it fails; in the failure case the `UrlEncode` error is returned
with no request sent, and no code path issues a second request (the request
log of `perform_request`, shared verbatim by `fetch_json` and
`fetch_image`, has length one or zero). -/
theorem single_request_per_call {E P R : Type} (execute : Request → Except E Response)
    (api_key url_path : String) (serializeQuery : P → Except String String) (params : P)
    (decode : List Nat → Except String R) :
    (perform_request execute api_key url_path serializeQuery params).1.length =
        (match serializeQuery params with
          | Except.ok _ => 1
          | Except.error _ => 0) ∧
      (fetch_json execute api_key url_path serializeQuery params decode).1 =
        (perform_request execute api_key url_path serializeQuery params).1 ∧
      (fetch_image execute api_key url_path serializeQuery params).1 =
        (perform_request execute api_key url_path serializeQuery params).1 ∧
      (∀ e, serializeQuery params = Except.error e →
        perform_request execute api_key url_path serializeQuery params =
          ([], Except.error (Error.UrlEncode e))) := by
  refine ⟨?_, rfl, rfl, ?_⟩
  · unfold perform_request
    cases serializeQuery params <;> simp
  · intro e he
    unfold perform_request
    rw [he]

/-- Witness for C2: with a failing serializer the capability receives no
request and the encoding error surfaces. -/
theorem single_request_per_call_witness :
    perform_request (fun _ => Except.ok { status := 200, body := [] } : Request → Except Unit Response)
        ("KEY") ("/sites/list.json") (fun _ : Unit => Except.error "boom") () =
      ([], Except.error (Error.UrlEncode "boom")) :=
  (single_request_per_call (fun _ => Except.ok { status := 200, body := [] })
    ("KEY") ("/sites/list.json") (fun _ : Unit => Except.error "boom") ()
    (fun _ => Except.ok 0)).2.2.2 ("boom") rfl

/-- C4: for every slice of enum values — whose per-element
`to_variant_name` always succeeds with the vendor token — the comma-list
serializer succeeds and produces the tokens joined by single commas, no
brackets, nothing else inserted, which is exactly `String.intercalate ","`;
in particular `[Active, Pending]` site statuses yield the literal value
`Active,Pending`, the empty slice the empty string, and a singleton just
its token. -/
theorem comma_list_serialization :
    (∀ (α : Type) (token : α → String) (l : List α),
        serialize_comma_slice (to_variant_name_ok token) l =
          Except.ok (String.intercalate "," (l.map token))) ∧
      serialize_comma_slice (to_variant_name_ok SiteStatus.token)
          [SiteStatus.Active, SiteStatus.Pending] = Except.ok "Active,Pending" ∧
      serialize_comma_slice (to_variant_name_ok SiteStatus.token) [] = Except.ok "" ∧
      serialize_comma_slice (to_variant_name_ok SiteStatus.token) [SiteStatus.Active] =
        Except.ok "Active" := by
  refine ⟨?_, rfl, rfl, rfl⟩
  intro α token l
  exact serialize_comma_slice_ok token l

/-- C8: for every enum supporting both directions, serializing a variant
with a defined wire token and deserializing the produced token recovers the
variant: unconditionally for `TimeUnit` and `MeterType`, and for the
defined-token variants of `EnergyUnit` and `PowerUnit` (whose untagged
`Other` catch-all is excluded by the claim). -/
theorem enum_token_roundtrip :
    (∀ u : TimeUnit, TimeUnit.de (TimeUnit.ser u) = some u) ∧
      (∀ m : MeterType, MeterType.de (MeterType.ser m) = some m) ∧
      (∀ u : EnergyUnit, EnergyUnit.hasToken u = true → EnergyUnit.de (EnergyUnit.ser u) = u) ∧
      (∀ p : PowerUnit, PowerUnit.hasToken p = true → PowerUnit.de (PowerUnit.ser p) = p) := by
  refine ⟨?_, ?_, ?_, ?_⟩
  · intro u; cases u <;> rfl
  · intro m; cases m <;> rfl
  · intro u h
    cases u with
    | Wh => rfl
    | Other s => simp [EnergyUnit.hasToken] at h
  · intro p h
    cases p with
    | W => rfl
    | Kw => rfl
    | Other s => simp [PowerUnit.hasToken] at h

/-- Witness for C8: the round-trip evaluated on the defined tokens `Wh` and
`kW`. -/
theorem enum_token_roundtrip_witness :
    EnergyUnit.de (EnergyUnit.ser EnergyUnit.Wh) = EnergyUnit.Wh ∧
      PowerUnit.de (PowerUnit.ser PowerUnit.Kw) = PowerUnit.Kw :=
  ⟨enum_token_roundtrip.2.2.1 EnergyUnit.Wh rfl, enum_token_roundtrip.2.2.2 PowerUnit.Kw rfl⟩

/-- C10 (amended): the Debug output of a client is entirely independent of
its api_key — any two clients that differ only in the key render
identically, with the placeholder `"<hidden>"` in the api_key position. The
key string itself can nevertheless occur in the output when it happens to
coincide with text that is printed regardless of the key (see the
counterexample with the key `"Client"`). -/
theorem debug_output_independent_of_key (c1 c2 : ClientDebugView)
    (hc : c1.client = c2.client) (hb : c1.base_url = c2.base_url) :
    debugClient c1 = debugClient c2 := by
  simp [debugClient, hc, hb]

/-- Witness for C10: two clients with different keys have identical Debug
output. -/
theorem debug_output_independent_of_key_witness :
    debugClient { client := "ReqwestAdapter", base_url := baseUrl, api_key := "secret-1" } =
      debugClient { client := "ReqwestAdapter", base_url := baseUrl, api_key := "secret-2" } :=
  debug_output_independent_of_key _ _ rfl rfl

/-- Counterexample for C10 as stated: for the client whose api_key is the
string `Client`, the key string does appear verbatim in the Debug output
(as the struct name), even though the output does not depend on the key. -/
theorem debug_key_substring_counterexample :
    (ClientDebugView.mk ("ReqwestAdapter") (baseUrl) ("Client")).api_key = "Client" ∧
      isSubstr (String.toList "Client")
        (String.toList (debugClient (ClientDebugView.mk ("ReqwestAdapter") (baseUrl) ("Client")))) =
        true := by
  refine ⟨rfl, ?_⟩
  decide

/-- C3 (amended): for every request parameter struct other than
`SiteStorageData`, an absent optional field contributes no key at all to
the query (not an empty or null value), every present field contributes
exactly one `key=value` pair carrying its documented token/format
(`valuesFor` lists everything a key maps to), and a struct with all fields
absent produces the empty query string, so the URL receives no query
component. For `SiteStorageData` the same holds for an absent `serials`
field, but a present non-empty `serials` list makes the whole
serialization fail with the `UnsupportedType` error (surfaced as the
URL-encoding error, no request sent), so the field never contributes a
pair; a present empty list contributes one empty-valued pair. -/
theorem optional_fields_query :
    (∀ p : SitesList,
        valuesFor p.toPairs ("size") = (p.size.map Nat.repr).toList ∧
        valuesFor p.toPairs ("startIndex") = (p.start_index.map Nat.repr).toList ∧
        valuesFor p.toPairs ("searchText") = p.search_text.toList ∧
        valuesFor p.toPairs ("sortProperty") = (p.sort_property.map SiteSortBy.token).toList ∧
        valuesFor p.toPairs ("sortOrder") = (p.sort_order.map SortOrder.token).toList ∧
        valuesFor p.toPairs ("status") =
          (p.status.map (comma_tokens SiteStatus.token)).toList) ∧
      (∀ p : SiteEnergy,
        valuesFor p.toPairs ("startDate") = [formatDate p.start_date] ∧
        valuesFor p.toPairs ("endDate") = [formatDate p.end_date] ∧
        valuesFor p.toPairs ("timeUnit") = (p.time_unit.map TimeUnit.ser).toList) ∧
      (∀ p : SitePowerDetails,
        valuesFor p.toPairs ("startTime") = [formatDateTime p.start_time] ∧
        valuesFor p.toPairs ("endTime") = [formatDateTime p.end_time] ∧
        valuesFor p.toPairs ("meters") =
          (p.meters.map (comma_tokens MeterType.ser)).toList) ∧
      (∀ p : MetersDateTimeRange,
        valuesFor p.toPairs ("startTime") = [formatDateTime p.start_time] ∧
        valuesFor p.toPairs ("endTime") = [formatDateTime p.end_time] ∧
        valuesFor p.toPairs ("timeUnit") = (p.time_unit.map TimeUnit.ser).toList ∧
        valuesFor p.toPairs ("meters") =
          (p.meters.map (comma_tokens MeterType.ser)).toList) ∧
      (∀ p : SiteImage,
        valuesFor p.toPairs ("maxWidth") = (p.max_width.map Nat.repr).toList ∧
        valuesFor p.toPairs ("maxHeight") = (p.max_height.map Nat.repr).toList ∧
        valuesFor p.toPairs ("hash") = (p.hash.map Nat.repr).toList) ∧
      (∀ p : SiteEnvBenefits,
        valuesFor p.toPairs ("systemUnits") = (p.system_units.map SystemUnits.token).toList) ∧
      (∀ p : AccountsList,
        valuesFor p.toPairs ("size") = (p.size.map Nat.repr).toList ∧
        valuesFor p.toPairs ("startIndex") = (p.start_index.map Nat.repr).toList ∧
        valuesFor p.toPairs ("searchText") = p.search_text.toList ∧
        valuesFor p.toPairs ("sortProperty") = (p.sort_property.map AccountSortBy.token).toList ∧
        valuesFor p.toPairs ("sortOrder") = (p.sort_order.map SortOrder.token).toList) ∧
      (∀ st et, SiteStorageData.serialize { start_time := st, end_time := et, serials := none } =
        Except.ok [("startTime", formatDateTime st), ("endTime", formatDateTime et)]) ∧
      (∀ st et sn sns, SiteStorageData.serialize
          { start_time := st, end_time := et, serials := some (sn :: sns) } =
        Except.error "UnsupportedType") ∧
      (∀ st et, SiteStorageData.serialize { start_time := st, end_time := et, serials := some [] } =
        Except.ok [("startTime", formatDateTime st), ("endTime", formatDateTime et),
          ("serials", "")]) ∧
      (SiteImage.mk none none none).toPairs = [] ∧
      (SiteEnvBenefits.mk none).toPairs = [] ∧
      (AccountsList.mk none none none none none).toPairs = [] ∧
      (∀ p : SitesList, p.size = none → p.start_index = none → p.search_text = none →
        p.sort_property = none → p.sort_order = none → p.status = none →
        p.toPairs = [] ∧ renderQuery p.toPairs = "" ∧
        buildUrl ("/sites/list.json") (renderQuery p.toPairs) = baseUrl ++ "/sites/list.json") := by
  refine ⟨?_, ?_, ?_, ?_, ?_, ?_, ?_, ?_, ?_, ?_, rfl, rfl, rfl, ?_⟩
  · intro p
    refine ⟨?_, ?_, ?_, ?_, ?_, ?_⟩ <;>
      simp [SitesList.toPairs, valuesFor_append,
        valuesFor_optPair_self, valuesFor_optPair_ne]
  · rintro ⟨sd, ed, tu⟩
    refine ⟨?_, ?_, ?_⟩ <;> cases tu <;>
      simp [SiteEnergy.toPairs, valuesFor, optPair]
  · rintro ⟨st, et, ms⟩
    refine ⟨?_, ?_, ?_⟩ <;> cases ms <;>
      simp [SitePowerDetails.toPairs, valuesFor, optPair]
  · rintro ⟨st, et, tu, ms⟩
    refine ⟨?_, ?_, ?_, ?_⟩ <;> cases tu <;> cases ms <;>
      simp [MetersDateTimeRange.toPairs, valuesFor, optPair]
  · intro p
    refine ⟨?_, ?_, ?_⟩ <;>
      simp [SiteImage.toPairs, valuesFor_append, valuesFor_optPair_self, valuesFor_optPair_ne]
  · rintro ⟨su⟩
    cases su <;> simp [SiteEnvBenefits.toPairs, valuesFor, optPair]
  · intro p
    refine ⟨?_, ?_, ?_, ?_, ?_⟩ <;>
      simp [AccountsList.toPairs, valuesFor_append, valuesFor_optPair_self, valuesFor_optPair_ne]
  · intro st et
    rfl
  · intro st et sn sns
    rfl
  · intro st et
    rfl
  · intro p h1 h2 h3 h4 h5 h6
    have hp : p.toPairs = [] := by
      simp [SitesList.toPairs, h1, h2, h3, h4, h5, h6, optPair]
    refine ⟨hp, ?_, ?_⟩ <;> simp [hp, renderQuery, buildUrl, String.intercalate]

/-- Witness for C3: the all-absent `SitesList` yields no query pairs, the
empty query string and a query-less URL. -/
theorem optional_fields_query_witness :
    (SitesList.mk none none none none none none).toPairs = [] ∧
      renderQuery (SitesList.mk none none none none none none).toPairs = "" ∧
      buildUrl ("/sites/list.json")
          (renderQuery (SitesList.mk none none none none none none).toPairs) =
        baseUrl ++ "/sites/list.json" :=
  optional_fields_query.2.2.2.2.2.2.2.2.2.2.2.2.2 (SitesList.mk none none none none none none)
    rfl rfl rfl rfl rfl rfl

/-- Counterexample for C3 as stated: the `SiteStorageData` request struct
with the present serials list `["X1"]` contributes no `serials` key=value
pair at all — its serialization fails with the `UnsupportedType` error of
`to_variant_name` on a string element, which the client surfaces as the
URL-encoding error before any request is sent. -/
theorem storage_serials_query_counterexample :
    SiteStorageData.serialize
        { start_time := { date := { year := 2021, month := 8, day := 10 }, time := midnight },
          end_time := { date := { year := 2021, month := 8, day := 12 }, time := midnight },
          serials := some ["X1"] } =
      Except.error "UnsupportedType" ∧
      perform_request
          (fun _ => Except.ok { status := 200, body := [] } : Request → Except Unit Response)
          ("KEY") ("/site/1/storageData.json")
          (fun p : SiteStorageData => (p.serialize).map renderQuery)
          { start_time := { date := { year := 2021, month := 8, day := 10 }, time := midnight },
            end_time := { date := { year := 2021, month := 8, day := 12 }, time := midnight },
            serials := some ["X1"] } =
        ([], Except.error (Error.UrlEncode "UnsupportedType")) :=
  ⟨rfl, rfl⟩

/-- C9: the older crate appends the API key as the final `api_key` query
pair after all parameter-derived pairs (and the parameter structs never
produce an `api_key` key themselves, so it occurs exactly once); the newer
crate sends the key exactly once as the `X-API-Key` header of every request
it builds, and its query consists of the parameter pairs alone, which never
contain `api_key`. -/
theorem api_key_transmission (api_key : String) :
    (∀ (P : Type) (ser : P → Except String (List (String × String))) (params : P)
        (pairs : List (String × String)), ser params = Except.ok pairs →
      prepare_url ser api_key params = Except.ok (pairs ++ [("api_key", api_key)]) ∧
        (pairs ++ [("api_key", api_key)]).getLast? = some ("api_key", api_key) ∧
        valuesFor (pairs ++ [("api_key", api_key)]) ("api_key") =
          valuesFor pairs ("api_key") ++ [api_key]) ∧
      (∀ p : SitesList, valuesFor p.toPairs ("api_key") = []) ∧
      (∀ p : SiteEnergy, valuesFor p.toPairs ("api_key") = []) ∧
      (∀ p : SitePowerDetails, valuesFor p.toPairs ("api_key") = []) ∧
      (∀ p : MetersDateTimeRange, valuesFor p.toPairs ("api_key") = []) ∧
      (∀ p : SiteTotalEnergy, valuesFor p.toPairs ("api_key") = []) ∧
      (∀ p : DateTimeRange, valuesFor p.toPairs ("api_key") = []) ∧
      (∀ p : SensorsDateTimeRange, valuesFor p.toPairs ("api_key") = []) ∧
      (∀ p : SiteImage, valuesFor p.toPairs ("api_key") = []) ∧
      (∀ p : SiteEnvBenefits, valuesFor p.toPairs ("api_key") = []) ∧
      (∀ p : AccountsList, valuesFor p.toPairs ("api_key") = []) ∧
      (∀ (E P : Type) (execute : Request → Except E Response) (url_path : String)
          (ser : P → Except String String) (params : P) (req : Request),
        req ∈ (perform_request execute api_key url_path ser params).1 →
        req.headers = [("X-API-Key", api_key)] ∧
          (req.headers.filter fun kv => kv.1 = "X-API-Key").length = 1) := by
  refine ⟨?_, ?_, ?_, ?_, ?_, ?_, ?_, ?_, ?_, ?_, ?_, ?_⟩
  · intro P ser params pairs hser
    refine ⟨?_, ?_, ?_⟩
    · unfold prepare_url
      rw [hser]
    · exact List.getLast?_concat _
    · simp [valuesFor_append, valuesFor, optPair]
  · intro p
    simp [SitesList.toPairs, valuesFor_append, valuesFor_optPair_ne]
  · rintro ⟨sd, ed, tu⟩
    cases tu <;> simp [SiteEnergy.toPairs, valuesFor, optPair]
  · rintro ⟨st, et, ms⟩
    cases ms <;> simp [SitePowerDetails.toPairs, valuesFor, optPair]
  · rintro ⟨st, et, tu, ms⟩
    cases tu <;> cases ms <;>
      simp [MetersDateTimeRange.toPairs, valuesFor, optPair]
  · intro p
    simp [SiteTotalEnergy.toPairs, valuesFor]
  · intro p
    simp [DateTimeRange.toPairs, valuesFor]
  · intro p
    simp [SensorsDateTimeRange.toPairs, valuesFor]
  · rintro ⟨mw, mh, hs⟩
    cases mw <;> cases mh <;> cases hs <;> simp [SiteImage.toPairs, valuesFor, optPair]
  · rintro ⟨su⟩
    cases su <;> simp [SiteEnvBenefits.toPairs, valuesFor, optPair]
  · rintro ⟨sz, si, st, sp, so⟩
    cases sz <;> cases si <;> cases st <;> cases sp <;> cases so <;>
      simp [AccountsList.toPairs, valuesFor, optPair]
  · intro E P execute url_path ser params req hreq
    unfold perform_request at hreq
    cases hser : ser params with
    | error e => rw [hser] at hreq; simp at hreq
    | ok q =>
      rw [hser] at hreq
      simp at hreq
      rw [hreq]
      simp

/-- Witness for C9: a concrete older-crate URL build puts `api_key` last,
and a concrete newer-crate request carries the key as its only header. -/
theorem api_key_transmission_witness :
    prepare_url (fun _ : Unit => Except.ok [("size", "32")]) ("KEY") () =
        Except.ok [("size", "32"), ("api_key", "KEY")] ∧
      (Request.mk ("GET") (buildUrl ("/sites/list.json") ("size=32"))
            ([("X-API-Key", "KEY")]) []).headers =
        [("X-API-Key", "KEY")] := by
  refine ⟨?_, ?_⟩
  · exact ((api_key_transmission ("KEY")).1 Unit (fun _ => Except.ok [("size", "32")]) ()
      [("size", "32")] rfl).1
  · exact ((api_key_transmission ("KEY")).2.2.2.2.2.2.2.2.2.2.2 Unit Unit
      (fun _ => Except.ok { status := 200, body := [] }) ("/sites/list.json")
      (fun _ => Except.ok "size=32") ()
      (Request.mk ("GET") (buildUrl ("/sites/list.json") ("size=32"))
        ([("X-API-Key", "KEY")]) []) (by simp [perform_request])).1

/-- C7: the generic `List<T>` decoder yields the same uniform
count-plus-elements result whichever accepted alias carries the count and
whichever accepted alias carries the payload — any alias pair decodes
identically to the canonical `count`/`data` pair — and in particular
`\x7b"count":2,"batteries":[a,b]\x7d` decodes to count `some 2` with the
two elements. -/
theorem list_envelope_alias_uniform :
    (∀ (α : Type) (decT : Json → Except String α) (ck lk : String) (cv lv : Json),
        ck ∈ countAliases → lk ∈ listAliases →
        decodeListEnvelope decT (Json.obj [(ck, cv), (lk, lv)]) =
          decodeListEnvelope decT (Json.obj [("count", cv), ("data", lv)])) ∧
      (∀ a b : Json,
        (decodeListEnvelope (fun j => Except.ok j)
            (Json.obj [("count", Json.num 2), ("batteries", Json.arr [a, b])])).map
            (fun env => (env.count, env.list)) =
          Except.ok (some 2, [a, b])) := by
  constructor
  · intro α decT ck lk cv lv hck hlk
    simp only [countAliases, List.mem_cons, List.mem_singleton, List.not_mem_nil,
      or_false] at hck
    simp only [listAliases, List.mem_cons, List.mem_singleton, List.not_mem_nil,
      or_false] at hlk
    rcases hck with h | h | h <;> subst h <;>
      rcases hlk with h | h | h | h | h | h | h <;> subst h <;>
      cases hcv : decodeCount cv <;> cases hlv : decodeElems decT lv <;>
      simp [decodeListEnvelope, decodeFields, countAliases, listAliases, hcv, hlv]
  · intro a b
    rfl

/-- Witness for C7: the alias invariance applied to the `batteryCount` and
`telemetries` aliases at a concrete envelope. -/
theorem list_envelope_alias_uniform_witness :
    decodeListEnvelope (fun j => Except.ok j)
        (Json.obj [("batteryCount", Json.num 1), ("telemetries", Json.arr [Json.null])]) =
      decodeListEnvelope (fun j => Except.ok j)
        (Json.obj [("count", Json.num 1), ("data", Json.arr [Json.null])]) :=
  list_envelope_alias_uniform.1 Json (fun j => Except.ok j) ("batteryCount") ("telemetries")
    (Json.num 1) (Json.arr [Json.null]) (by simp [countAliases]) (by simp [listAliases])

/-- C1 (amended): for every client method, a 4xx/5xx response from the
injected capability becomes `Error::Api` carrying that status and the
lossy UTF-8 decoding of the response body — which equals the raw body
whenever the body is ASCII/valid UTF-8, as in the 403 `Forbidden` example —
and the JSON decoder is never consulted (the result is the same for every
`decode`, which only enters the statement as an arbitrary binder). -/
theorem api_error_short_circuits_decode {E P R : Type}
    (execute : Request → Except E Response) (api_key url_path : String)
    (serializeQuery : P → Except String String) (params : P) (q : String)
    (res : Response) (decode : List Nat → Except String R)
    (hq : serializeQuery params = Except.ok q)
    (hexec : ∀ r : Request, execute r = Except.ok res)
    (hstatus : 400 ≤ res.status ∧ res.status ≤ 599) :
    (fetch_json execute api_key url_path serializeQuery params decode).2 =
        Except.error (Error.Api res.status (utf8Lossy res.body)) ∧
      (fetch_image execute api_key url_path serializeQuery params).2 =
        Except.error (Error.Api res.status (utf8Lossy res.body)) ∧
      ((∀ b ∈ res.body, b ≤ 0x7F) →
        (fetch_json execute api_key url_path serializeQuery params decode).2 =
          Except.error (Error.Api res.status res.body)) := by
  obtain ⟨hs1, hs2⟩ := hstatus
  have hcond : ((400 ≤ res.status && res.status ≤ 499) ||
      (500 ≤ res.status && res.status ≤ 599)) = true := by
    simp only [Bool.or_eq_true, Bool.and_eq_true, decide_eq_true_eq]
    omega
  have hperf : (perform_request execute api_key url_path serializeQuery params).2 =
      Except.error (Error.Api res.status (utf8Lossy res.body)) := by
    unfold perform_request
    rw [hq]
    simp only [hexec]
    unfold error_for_status
    rw [if_pos hcond]
  refine ⟨?_, ?_, ?_⟩
  · unfold fetch_json
    simp only [hperf]
  · unfold fetch_image
    simp only [hperf]
  · intro hascii
    unfold fetch_json
    simp only [hperf]
    rw [utf8Lossy_ascii res.body hascii]

/-- Witness for C1: a response with status 403 and body `Forbidden` makes a
method return the API error with status 403 and exactly the bytes of
`Forbidden`, whatever the JSON decoder would have done. -/
theorem api_error_short_circuits_decode_witness :
    (fetch_json forbiddenExecute ("KEY") ("/site/1/details.json")
        (fun _ : Unit => Except.ok "") () (fun _ => Except.ok 0)).2 =
      Except.error (Error.Api 403 [70, 111, 114, 98, 105, 100, 100, 101, 110]) :=
  (api_error_short_circuits_decode forbiddenExecute ("KEY") ("/site/1/details.json")
    (fun _ : Unit => Except.ok "") () ("")
    { status := 403, body := [70, 111, 114, 98, 105, 100, 100, 101, 110] }
    (fun _ => Except.ok 0) rfl (fun _ => rfl) (by decide)).2.2 (by decide)

/-- Counterexample for C1 as stated: when the 403 body is the invalid UTF-8
byte `0xFF`, the error produced by the method carries the replacement bytes
`EF BF BD` produced by the lossy conversion, not the raw body. -/
theorem api_error_raw_body_counterexample :
    (fetch_json badBodyExecute ("KEY") ("/site/1/details.json")
        (fun _ : Unit => Except.ok "") () (fun _ => Except.ok 0)).2 =
      Except.error (Error.Api 403 [0xEF, 0xBF, 0xBD]) ∧
      ([0xEF, 0xBF, 0xBD] : List Nat) ≠ [0xFF] := by
  refine ⟨rfl, ?_⟩
  decide

/-! ## Lemmas about digit formatting and parsing -/

theorem toList_append (a b : String) : (a ++ b).toList = a.toList ++ b.toList := rfl

theorem digitChar_isDigit (k : Nat) (h : k < 10) : (digitChar k).isDigit = true := by
  interval_cases k <;> decide

theorem digitChar_toNat (k : Nat) (h : k < 10) : (digitChar k).toNat = 48 + k := by
  interval_cases k <;> decide

theorem parseNum_pad4 (n : Nat) (h : n < 10000) (rest : List Char) :
    parseNum 4 ((pad4 n).toList ++ rest) = some (n, rest) := by
  have h1 : n / 1000 < 10 := by omega
  have h2 : n / 100 % 10 < 10 := by omega
  have h3 : n / 10 % 10 < 10 := by omega
  have h4 : n % 10 < 10 := by omega
  have e : (pad4 n).toList = [digitChar (n / 1000), digitChar (n / 100 % 10),
      digitChar (n / 10 % 10), digitChar (n % 10)] := by
    simp [pad4, h, String.toList]
  rw [e]
  simp only [List.cons_append, List.nil_append]
  simp [parseNum, takeDigits, digitChar_isDigit _ h1, digitChar_isDigit _ h2,
    digitChar_isDigit _ h3, digitChar_isDigit _ h4, digitsVal,
    digitChar_toNat _ h1, digitChar_toNat _ h2, digitChar_toNat _ h3, digitChar_toNat _ h4]
  omega

theorem parseNum_pad2 (n : Nat) (h : n < 100) (rest : List Char) :
    parseNum 2 ((pad2 n).toList ++ rest) = some (n, rest) := by
  have h1 : n / 10 < 10 := by omega
  have h2 : n % 10 < 10 := by omega
  have e : (pad2 n).toList = [digitChar (n / 10), digitChar (n % 10)] := by
    simp [pad2, h, String.toList]
  rw [e]
  simp only [List.cons_append, List.nil_append]
  simp [parseNum, takeDigits, digitChar_isDigit _ h1, digitChar_isDigit _ h2,
    digitsVal, digitChar_toNat _ h1, digitChar_toNat _ h2]
  omega

theorem digitChar_not_ws (k : Nat) (h : k < 10) : (digitChar k).isWhitespace = false := by
  interval_cases k <;> decide

theorem digitChar_ne_plus (k : Nat) (h : k < 10) : digitChar k ≠ '+' := by
  interval_cases k <;> decide

theorem digitChar_ne_minus (k : Nat) (h : k < 10) : digitChar k ≠ '-' := by
  interval_cases k <;> decide

theorem skipWhitespace_not_ws (c : Char) (h : c.isWhitespace = false) (l : List Char) :
    skipWhitespace (c :: l) = c :: l := by
  simp [skipWhitespace, h]

theorem skipWhitespace_space (l : List Char) : skipWhitespace (' ' :: l) = skipWhitespace l := by
  have hws : (' ').isWhitespace = true := by decide
  simp [skipWhitespace, hws]

theorem parseYearNum_pad4 (n : Nat) (h : n < 10000) (rest : List Char) :
    parseYearNum ((pad4 n).toList ++ rest) = some (Int.ofNat n, rest) := by
  have h1 : n / 1000 < 10 := by omega
  have e : (pad4 n).toList = [digitChar (n / 1000), digitChar (n / 100 % 10),
      digitChar (n / 10 % 10), digitChar (n % 10)] := by
    simp [pad4, h, String.toList]
  have hsw : skipWhitespace ((pad4 n).toList ++ rest) = (pad4 n).toList ++ rest := by
    rw [e]
    simp only [List.cons_append]
    exact skipWhitespace_not_ws _ (digitChar_not_ws _ h1) _
  have hhead : ((pad4 n).toList ++ rest).head? = some (digitChar (n / 1000)) := by
    rw [e]
    rfl
  simp only [parseYearNum, hsw, hhead]
  rw [if_neg (by simp [digitChar_ne_plus _ h1]), if_neg (by simp [digitChar_ne_minus _ h1]),
    parseNum_pad4 n h rest]
  rfl

theorem parseNumWs_pad2 (n : Nat) (h : n < 100) (rest : List Char) :
    parseNumWs 2 ((pad2 n).toList ++ rest) = some (n, rest) := by
  have h1 : n / 10 < 10 := by omega
  have hsw : skipWhitespace ((pad2 n).toList ++ rest) = (pad2 n).toList ++ rest := by
    have e : (pad2 n).toList = [digitChar (n / 10), digitChar (n % 10)] := by
      simp [pad2, h, String.toList]
    rw [e]
    simp only [List.cons_append]
    exact skipWhitespace_not_ws _ (digitChar_not_ws _ h1) _
  unfold parseNumWs
  rw [hsw, parseNum_pad2 n h rest]

theorem daysInMonth_le (y : Int) (m : Nat) : daysInMonth y m ≤ 31 := by
  unfold daysInMonth
  split_ifs <;> omega

theorem validDate_bounds (y : Int) (m d : Nat) (h : validDate y m d = true) :
    1 ≤ m ∧ m ≤ 12 ∧ 1 ≤ d ∧ d ≤ 31 := by
  simp only [validDate, Bool.and_eq_true, decide_eq_true_eq] at h
  obtain ⟨⟨⟨⟨⟨hy1, hy2⟩, hm1⟩, hm2⟩, hd1⟩, hd2⟩ := h
  exact ⟨hm1, hm2, hd1, le_trans hd2 (daysInMonth_le y m)⟩

theorem validTime_bounds (h mi s : Nat) (hv : validTime h mi s = true) :
    h ≤ 23 ∧ mi ≤ 59 ∧ s ≤ 59 := by
  simp only [validTime, Bool.and_eq_true, decide_eq_true_eq] at hv
  exact ⟨hv.1.1, hv.1.2, hv.2⟩

theorem parseDatePrefix_format (dd : Date) (hy0 : 0 ≤ dd.year) (hy : dd.year ≤ 9999)
    (hv : validDate dd.year dd.month dd.day = true) (rest : List Char) :
    parseDatePrefix ((formatDate dd).toList ++ rest) = some (dd, rest) := by
  obtain ⟨y, m, d⟩ := dd
  simp only at hy0 hy hv
  obtain ⟨hm1, hm2, hd1, hd2⟩ := validDate_bounds y m d hv
  have hyn : y.toNat < 10000 := by omega
  have hcast : Int.ofNat y.toNat = y := Int.toNat_of_nonneg hy0
  have hfy : formatYear y = pad4 y.toNat := by
    simp [formatYear, hy0, hy]
  have hl : (formatDate { year := y, month := m, day := d }).toList ++ rest =
      (pad4 y.toNat).toList ++ '-' :: ((pad2 m).toList ++ '-' :: ((pad2 d).toList ++ rest)) := by
    simp [formatDate, hfy, toList_append, String.toList]
  rw [hl]
  unfold parseDatePrefix
  rw [parseYearNum_pad4 y.toNat hyn ('-' :: ((pad2 m).toList ++ '-' :: ((pad2 d).toList ++ rest)))]
  simp only [expectChar, if_pos]
  rw [parseNumWs_pad2 m (by omega) ('-' :: ((pad2 d).toList ++ rest))]
  simp only [expectChar, if_pos]
  rw [parseNumWs_pad2 d (by omega) rest]
  simp only [hcast, hv, if_pos]

theorem parseTimePart_format (t : Time) (hv : validTime t.hour t.minute t.second = true)
    (rest : List Char) :
    parseTimePart (' ' :: ((formatTime t).toList ++ rest)) = some (t, rest) := by
  obtain ⟨h, mi, s⟩ := t
  simp only at hv
  obtain ⟨hh, hmi, hs⟩ := validTime_bounds h mi s hv
  have hl : (formatTime { hour := h, minute := mi, second := s }).toList ++ rest =
      (pad2 h).toList ++ ':' :: ((pad2 mi).toList ++ ':' :: ((pad2 s).toList ++ rest)) := by
    simp [formatTime, toList_append, String.toList]
  rw [hl]
  unfold parseTimePart
  have hfirst : parseNumWs 2
      (' ' :: ((pad2 h).toList ++ ':' :: ((pad2 mi).toList ++ ':' :: ((pad2 s).toList ++ rest)))) =
      some (h, ':' :: ((pad2 mi).toList ++ ':' :: ((pad2 s).toList ++ rest))) := by
    unfold parseNumWs
    rw [skipWhitespace_space]
    exact parseNumWs_pad2 h (by omega) (':' :: ((pad2 mi).toList ++ ':' :: ((pad2 s).toList ++ rest)))
  rw [hfirst]
  simp only [expectChar, if_pos]
  rw [parseNumWs_pad2 mi (by omega) (':' :: ((pad2 s).toList ++ rest))]
  simp only [expectChar, if_pos]
  rw [parseNumWs_pad2 s (by omega) rest]
  simp only [hv, if_pos]

theorem formatDate_toList (dd : Date) (hy0 : 0 ≤ dd.year) (hy : dd.year ≤ 9999)
    (hm : dd.month < 100) (hd : dd.day < 100) :
    (formatDate dd).toList =
      [digitChar (dd.year.toNat / 1000), digitChar (dd.year.toNat / 100 % 10),
        digitChar (dd.year.toNat / 10 % 10), digitChar (dd.year.toNat % 10), '-',
        digitChar (dd.month / 10), digitChar (dd.month % 10), '-',
        digitChar (dd.day / 10), digitChar (dd.day % 10)] := by
  obtain ⟨y, m, d⟩ := dd
  simp only at hy0 hy hm hd ⊢
  have hyn : y.toNat < 10000 := by omega
  have hfy : formatYear y = pad4 y.toNat := by
    simp [formatYear, hy0, hy]
  simp [formatDate, hfy, pad4, pad2, hyn, hm, hd, toList_append, String.toList]

theorem formatTime_toList (t : Time) (hh : t.hour < 100) (hmi : t.minute < 100)
    (hs : t.second < 100) :
    (formatTime t).toList =
      [digitChar (t.hour / 10), digitChar (t.hour % 10), ':',
        digitChar (t.minute / 10), digitChar (t.minute % 10), ':',
        digitChar (t.second / 10), digitChar (t.second % 10)] := by
  obtain ⟨h, mi, s⟩ := t
  simp only at hh hmi hs ⊢
  simp [formatTime, pad2, hh, hmi, hs, toList_append, String.toList]

/-- C5 (amended): for every date whose year fits in four digits (0..=9999,
the amendment the counterexample forces) and is a valid calendar date, the
serializer output is literally of the `YYYY-MM-DD` shape, and the
`%Y-%m-%d` parser accepts it in full and recovers the same date; the
analogous statements hold for the `%Y-%m-%d %H:%M:%S` date-time
serializer; and the two concrete example values of the claim format to
`2021-08-10` and `2021-08-10 00:00:00`. -/
theorem date_format_roundtrip :
    (∀ (y : Int) (m d : Nat), 0 ≤ y → y ≤ 9999 → validDate y m d = true →
        isYYYYMMDD (formatDate { year := y, month := m, day := d }) = true ∧
        str_to_date (formatDate { year := y, month := m, day := d }) =
          some { year := y, month := m, day := d }) ∧
      (∀ dt : DateTime, 0 ≤ dt.date.year → dt.date.year ≤ 9999 →
        validDate dt.date.year dt.date.month dt.date.day = true →
        validTime dt.time.hour dt.time.minute dt.time.second = true →
        isYYYYMMDDHHMMSS (formatDateTime dt) = true ∧
        parse_datetime (formatDateTime dt) = some dt) ∧
      formatDate { year := 2021, month := 8, day := 10 } = "2021-08-10" ∧
      formatDateTime { date := { year := 2021, month := 8, day := 10 }, time := midnight } =
        "2021-08-10 00:00:00" := by
  refine ⟨?_, ?_, by decide, by decide⟩
  · intro y m d hy0 hy hv
    obtain ⟨hm1, hm2, hd1, hd2⟩ := validDate_bounds y m d hv
    constructor
    · unfold isYYYYMMDD
      rw [formatDate_toList { year := y, month := m, day := d } hy0 hy
        (by show m < 100; omega) (by show d < 100; omega)]
      simp [digitChar_isDigit _ (by omega : y.toNat / 1000 < 10),
        digitChar_isDigit _ (by omega : y.toNat / 100 % 10 < 10),
        digitChar_isDigit _ (by omega : y.toNat / 10 % 10 < 10),
        digitChar_isDigit _ (by omega : y.toNat % 10 < 10),
        digitChar_isDigit _ (by omega : m / 10 < 10),
        digitChar_isDigit _ (by omega : m % 10 < 10),
        digitChar_isDigit _ (by omega : d / 10 < 10),
        digitChar_isDigit _ (by omega : d % 10 < 10)]
    · unfold str_to_date
      rw [show (formatDate { year := y, month := m, day := d }).toList =
          (formatDate { year := y, month := m, day := d }).toList ++ [] from
          (List.append_nil _).symm,
        parseDatePrefix_format { year := y, month := m, day := d } hy0 hy hv []]
  · intro dt hy0 hy hvd hvt
    obtain ⟨hm1, hm2, hd1, hd2⟩ := validDate_bounds dt.date.year dt.date.month dt.date.day hvd
    obtain ⟨hh, hmi, hs⟩ := validTime_bounds dt.time.hour dt.time.minute dt.time.second hvt
    constructor
    · unfold isYYYYMMDDHHMMSS
      have hl19 : (formatDateTime dt).toList =
          (formatDate dt.date).toList ++ ' ' :: (formatTime dt.time).toList := by
        simp [formatDateTime, toList_append, String.toList]
      rw [hl19, formatDate_toList dt.date hy0 hy (by omega) (by omega),
        formatTime_toList dt.time (by omega) (by omega) (by omega)]
      simp [digitChar_isDigit _ (by omega : dt.date.year.toNat / 1000 < 10),
        digitChar_isDigit _ (by omega : dt.date.year.toNat / 100 % 10 < 10),
        digitChar_isDigit _ (by omega : dt.date.year.toNat / 10 % 10 < 10),
        digitChar_isDigit _ (by omega : dt.date.year.toNat % 10 < 10),
        digitChar_isDigit _ (by omega : dt.date.month / 10 < 10),
        digitChar_isDigit _ (by omega : dt.date.month % 10 < 10),
        digitChar_isDigit _ (by omega : dt.date.day / 10 < 10),
        digitChar_isDigit _ (by omega : dt.date.day % 10 < 10),
        digitChar_isDigit _ (by omega : dt.time.hour / 10 < 10),
        digitChar_isDigit _ (by omega : dt.time.hour % 10 < 10),
        digitChar_isDigit _ (by omega : dt.time.minute / 10 < 10),
        digitChar_isDigit _ (by omega : dt.time.minute % 10 < 10),
        digitChar_isDigit _ (by omega : dt.time.second / 10 < 10),
        digitChar_isDigit _ (by omega : dt.time.second % 10 < 10)]
    · have hl : (formatDateTime dt).toList =
          (formatDate dt.date).toList ++ (' ' :: ((formatTime dt.time).toList ++ [])) := by
        simp [formatDateTime, toList_append, String.toList]
      unfold parse_datetime
      rw [hl, parseDatePrefix_format dt.date hy0 hy hvd _]
      simp only [parseTimePart_format dt.time hvt]

/-- Witness for C5: the shape and the round-trip evaluated on the claim's
example date. -/
theorem date_format_roundtrip_witness :
    isYYYYMMDD (formatDate { year := 2021, month := 8, day := 10 }) = true ∧
      str_to_date (formatDate { year := 2021, month := 8, day := 10 }) =
        some { year := 2021, month := 8, day := 10 } :=
  date_format_roundtrip.1 2021 8 10 (by decide) (by decide) (by decide)

/-- Counterexample for C5 as stated: `NaiveDate` supports years beyond
9999 and chrono prints such years with an explicit sign, so the date
10000-01-01 serializes to `+10000-01-01` — twelve characters with a
leading sign, not the `YYYY-MM-DD` shape. (The signed `%Y` parser does
accept that output and recovers the date, so values round-trip; they just
leave the claimed format.) -/
theorem date_format_year_counterexample :
    formatDate { year := 10000, month := 1, day := 1 } = "+10000-01-01" ∧
      (formatDate { year := 10000, month := 1, day := 1 }).length ≠ 10 ∧
      isYYYYMMDD (formatDate { year := 10000, month := 1, day := 1 }) = false ∧
      str_to_date ("+10000-01-01") = some { year := 10000, month := 1, day := 1 } := by
  refine ⟨by decide, by decide, by decide, by decide⟩

/-- C6: a string accepted by the bare `%Y-%m-%d` date parser is accepted by
the date-time deserializer and yields midnight of that date (the date-time
pattern necessarily fails on it first, since nothing follows the date); a
string matching neither pattern makes deserialization fail; and the
concrete string `2021-08-10` deserializes to 2021-08-10 00:00:00. -/
theorem bare_date_fallback_midnight :
    (∀ (s : String) (d : Date), str_to_date s = some d →
        str_to_datetime s = some { date := d, time := midnight }) ∧
      (∀ s : String, parse_datetime s = none → str_to_date s = none →
        str_to_datetime s = none) ∧
      str_to_datetime ("2021-08-10") =
        some { date := { year := 2021, month := 8, day := 10 }, time := midnight } ∧
      str_to_datetime ("not-a-date") = none := by
  refine ⟨?_, ?_, by decide, by decide⟩
  · intro s d h
    have hd := h
    unfold str_to_date at h
    unfold str_to_datetime
    cases hp : parseDatePrefix s.toList with
    | none => rw [hp] at h; exact absurd h (by simp)
    | some pr =>
      obtain ⟨d0, rest⟩ := pr
      rw [hp] at h
      cases rest with
      | cons c cs => simp at h
      | nil =>
        have hpd : parse_datetime s = none := by
          unfold parse_datetime
          rw [hp]
          rfl
        rw [hpd, hd]
  · intro s h1 h2
    unfold str_to_datetime
    rw [h1, h2]

/-- Witness for C6: the fallback applied to the concrete bare date string
of the claim. -/
theorem bare_date_fallback_midnight_witness :
    str_to_datetime ("2021-08-10") =
      some { date := { year := 2021, month := 8, day := 10 }, time := midnight } :=
  bare_date_fallback_midnight.1 ("2021-08-10") { year := 2021, month := 8, day := 10 }
    (by decide)

end Solaredge
